import Mathlib

/-!
Verification development for the ResolveNOW dispute-resolution backend.

The definitions below are a shallow embedding of the request handlers in
`src/routes/cases.js` and `src/routes/admin.js`, the auth middleware in
`src/middleware/auth.js`, and the `WebSocketManager` class (connection
registry and broadcast fan-out).  Persistence is modelled as a list of
case records; a supabase `select ... .single()` becomes `findSingle`,
an `update ... .eq(...)` becomes a guarded `List.map`.  Timestamps are
naturals, `new Date().toISOString()` becomes an explicit `now` argument.
JavaScript falsiness of the relevant string fields (empty string or
absent) is modelled by `falsy`.
-/

namespace ResolveNow

/-- Principal attached to `req.user` by the auth middleware
(`src/middleware/auth.js`): id, email, user_type and (for admins) the
department taken from the user metadata. -/
structure Principal where
  id : String
  email : String
  user_type : String
  department : String
deriving DecidableEq, Repr

/-- A row of the `cases` table, with the union of the columns the
embedded handlers read or write.  `assigned_department` is optional:
the `/submit` insert does not set it, while the admin reassignment
route does. -/
structure Case where
  id : Nat
  user_id : String
  user_email : String
  case_title : String
  case_type : String
  description : String
  amount_involved : Option Int
  preferred_resolution : Option String
  urgency_level : String
  status : String
  assigned_department : Option String
  resolution : Option String
  admin_notes : Option String
  resolved_by : Option String
  resolved_at : Option Nat
  created_at : Nat
  updated_at : Option Nat
  last_updated : Option Nat
deriving DecidableEq, Repr

/-- HTTP outcome of a handler: status code plus the stable `code` field
of the JSON error body (empty string when the response carries none). -/
structure Resp where
  status : Nat
  code : String
deriving DecidableEq, Repr

/-- Model of a supabase query with row filters followed by `.single()`:
the result row when exactly one row matches, `none` otherwise (supabase
errors both on zero and on several matching rows). -/
def findSingle (store : List Case) (p : Case → Bool) : Option Case :=
  match store.filter p with
  | [c] => some c
  | _ => none

/-- Model of the `.trim()` sanitizer of express-validator and of JS
`String.prototype.trim`: strip leading and trailing whitespace. -/
def trimStr (s : String) : String :=
  ⟨((s.data.dropWhile Char.isWhitespace).reverse.dropWhile Char.isWhitespace).reverse⟩

/-- JS falsiness of an optional string field: absent or empty. -/
def falsy : Option String → Bool
  | none => true
  | some s => s == ""

/-- The `departmentToCaseTypes` object of `src/routes/admin.js`
(duplicated at lines 18-25, 184-191, 300-307, 355-362), including the
`|| ['other']` fallback for an unknown department. -/
def departmentToCaseTypes (d : String) : List String :=
  if d == "Consumer Affairs" then ["consumer"]
  else if d == "Employment" then ["employment"]
  else if d == "Legal" then ["contract"]
  else if d == "Property" then ["property"]
  else if d == "Family" then ["family"]
  else if d == "General" then ["other"]
  else ["other"]

/-- The `departmentMapping` object of `src/routes/cases.js:177-186`,
including the `|| 'General'` fallback. -/
def departmentMapping (t : String) : String :=
  if t == "consumer" then "Consumer Affairs"
  else if t == "employment" then "Employment"
  else if t == "contract" then "Legal"
  else if t == "property" then "Property"
  else if t == "family" then "Family"
  else if t == "other" then "General"
  else "General"

/-- The `body('status').isIn([...])` validator of
`src/routes/admin.js:152`. -/
def statusIsIn (s : String) : Bool :=
  ["pending", "in_review", "resolved", "rejected"].contains s

/-- Body of `PATCH /api/admin/cases/:id/status` (raw, before the
`.trim()` sanitizers run). -/
structure StatusBody where
  status : String
  resolution : Option String
  admin_notes : Option String
deriving DecidableEq, Repr

/-- The `updateData` applied by `src/routes/admin.js:201-231`: status
and `updated_at` always; resolution fields when resolving; admin notes
when truthy. -/
def applyStatusUpdate (c : Case) (status : String) (resolution admin_notes : Option String)
    (adminId : String) (now : Nat) : Case :=
  let c1 := { c with status := status, updated_at := some now }
  let c2 :=
    if status == "resolved" then
      { c1 with resolution := resolution, resolved_by := some adminId, resolved_at := some now }
    else c1
  if falsy admin_notes then c2 else { c2 with admin_notes := admin_notes }

/-- `PATCH /api/admin/cases/:id/status` (`src/routes/admin.js:151-266`),
with the `requireAdmin` middleware (`src/middleware/auth.js:62-70`)
prepended.  Order of checks as in the source: admin gate, status
`isIn` validator, fetch-by-id, department access on `case_type`,
resolution requirement when resolving, then the update. -/
def adminUpdateCaseStatus (admin : Principal) (store : List Case) (id : Nat)
    (b : StatusBody) (now : Nat) : Resp × List Case :=
  if admin.user_type != "admin" then (⟨403, "INSUFFICIENT_PERMISSIONS"⟩, store)
  else if !(statusIsIn b.status) then (⟨400, ""⟩, store)
  else
    let resolution := b.resolution.map trimStr
    let admin_notes := b.admin_notes.map trimStr
    match findSingle store (fun c => c.id == id) with
    | none => (⟨404, "CASE_NOT_FOUND"⟩, store)
    | some currentCase =>
      if !((departmentToCaseTypes admin.department).contains currentCase.case_type) then
        (⟨403, "ACCESS_DENIED"⟩, store)
      else if b.status == "resolved" && falsy resolution then
        (⟨400, "RESOLUTION_REQUIRED"⟩, store)
      else
        (⟨200, ""⟩,
         store.map (fun c =>
           if c.id == id then applyStatusUpdate c b.status resolution admin_notes admin.id now
           else c))

/-- `GET /api/cases/:id` (`src/routes/cases.js:75-118`): the select is
filtered by both `id` and `user_id = req.user.id`; any error or empty
result is a 404. -/
def getCaseUser (p : Principal) (store : List Case) (id : Nat) : Resp :=
  match findSingle store (fun c => c.id == id && c.user_id == p.id) with
  | some _ => ⟨200, ""⟩
  | none => ⟨404, "CASE_NOT_FOUND"⟩

/-- `GET /api/admin/cases/:id` (`src/routes/admin.js:96-148`) with the
`requireAdmin` middleware: the select is filtered by `id` and
`assigned_department = req.user.department`; empty result is a 404. -/
def getCaseAdmin (p : Principal) (store : List Case) (id : Nat) : Resp :=
  if p.user_type != "admin" then ⟨403, "INSUFFICIENT_PERMISSIONS"⟩
  else
    match findSingle store (fun c => c.id == id && c.assigned_department == some p.department) with
    | some _ => ⟨200, ""⟩
    | none => ⟨404, "CASE_NOT_FOUND"⟩

/-- `DELETE /api/cases/:id` (`src/routes/cases.js:356-411`): fetch by
id and owner, reject unless status is `Pending`, otherwise set status
to `Closed` and stamp `last_updated`. -/
def cancelCase (p : Principal) (store : List Case) (id : Nat) (now : Nat) : Resp × List Case :=
  match findSingle store (fun c => c.id == id && c.user_id == p.id) with
  | none => (⟨404, "CASE_NOT_FOUND"⟩, store)
  | some c =>
    if c.status != "Pending" then (⟨400, "CANNOT_CANCEL"⟩, store)
    else
      (⟨200, ""⟩,
       store.map (fun x =>
         if x.id == id && x.user_id == p.id then
           { x with status := "Closed", last_updated := some now }
         else x))

/-- Body of `POST /api/cases/submit` (raw, before sanitizers). -/
structure SubmitBody where
  caseTitle : String
  disputeType : String
  description : String
  disputeAmount : Option Int
  preferredResolution : Option String
  urgencyLevel : Option String
deriving DecidableEq, Repr

/-- The `validateCaseSubmission` middleware of
`src/routes/cases.js:8-14` (`disputeAmount` is modelled as an already
numeric optional, so `isNumeric` always passes). -/
def validateCaseSubmission (b : SubmitBody) : Bool :=
  (trimStr b.caseTitle).length ≥ 5 &&
  (["consumer", "employment", "contract", "property", "family", "other"].contains b.disputeType) &&
  (trimStr b.description).length ≥ 20

/-- The row inserted by `src/routes/cases.js:189-203`, together with
the schema defaults of `src/supabase-schema.sql` (`created_at` and
`last_updated` default to NOW()).  `assigned_department` is absent
from the insert object, so it stays unset.  `disputeAmount ? ... :
null` makes a zero amount null (JS falsiness of the number 0). -/
def newCaseFromSubmit (user : Principal) (b : SubmitBody) (now : Nat) (newId : Nat) : Case :=
  { id := newId
    user_id := user.id
    user_email := user.email
    case_title := trimStr b.caseTitle
    case_type := b.disputeType
    description := trimStr b.description
    amount_involved :=
      match b.disputeAmount with
      | some a => if a == 0 then none else some a
      | none => none
    preferred_resolution := b.preferredResolution.map trimStr
    urgency_level := b.urgencyLevel.getD "medium"
    status := "Pending"
    assigned_department := none
    resolution := none
    admin_notes := none
    resolved_by := none
    resolved_at := none
    created_at := now
    updated_at := none
    last_updated := some now }

/-- `POST /api/cases/submit` (`src/routes/cases.js:146-244`).  The
handler computes `assignedDepartment` from `departmentMapping`
(line 186) but the insert that follows does not include it. -/
def submitCase (user : Principal) (store : List Case) (b : SubmitBody) (now : Nat)
    (newId : Nat) : Resp × List Case :=
  if !(validateCaseSubmission b) then (⟨400, ""⟩, store)
  else
    let assignedDepartment := departmentMapping b.disputeType
    let _unused := assignedDepartment
    (⟨201, ""⟩, store ++ [newCaseFromSubmit user b now newId])

/-- Per-connection attributes of a websocket: whether `readyState` is
OPEN, and whether `ws.send` throws when called (the fault model the
fan-out is examined under). -/
structure ConnAttrs where
  isOpen : Bool
  failsOnSend : Bool
deriving DecidableEq, Repr

/-- State of the `WebSocketManager` registry: `clients` is the
`Map(userId -> Set of connections)` and `adminClients` the admin
`Set`, both in insertion order; connections are identified by
numeric ids. -/
structure WSState where
  clients : List (String × List Nat)
  adminClients : List Nat
deriving DecidableEq, Repr

/-- JS `Set.add`: append unless already present. -/
def addConn (s : List Nat) (c : Nat) : List Nat :=
  if s.contains c then s else s ++ [c]

/-- JS `Map.set` on an existing key: replace that key's value. -/
def setEntry (l : List (String × List Nat)) (u : String) (v : List Nat) :
    List (String × List Nat) :=
  l.map (fun q => if q.fst = u then (q.fst, v) else q)

/-- JS `Map.delete`: drop the key's entry. -/
def eraseEntry (l : List (String × List Nat)) (u : String) : List (String × List Nat) :=
  l.filter (fun q => q.fst != u)

/-- The registration part of `WebSocketManager.authenticateClient`
(part_004 lines 92-99): create the principal's set if absent, add the
connection to it, and add admins to the admin set. -/
def wsRegister (st : WSState) (u : String) (isAdmin : Bool) (c : Nat) : WSState :=
  let clients :=
    match st.clients.lookup u with
    | some s => setEntry st.clients u (addConn s c)
    | none => st.clients ++ [(u, addConn [] c)]
  { clients := clients
    adminClients := if isAdmin then addConn st.adminClients c else st.adminClients }

/-- `WebSocketManager.removeClient` (part_004 lines 133-144): if the
connection carries a truthy `userId` that is a key of `clients`,
delete it from that set, dropping the entry when the set becomes
empty; admins are also removed from the admin set. -/
def removeClient (st : WSState) (c : Nat) (userId : Option String) (isAdmin : Bool) : WSState :=
  let clients :=
    match userId with
    | none => st.clients
    | some u =>
      if u = "" then st.clients
      else
        match st.clients.lookup u with
        | none => st.clients
        | some s =>
          let s' := s.filter (fun x => x != c)
          if s'.isEmpty then eraseEntry st.clients u
          else setEntry st.clients u s'
  { clients := clients
    adminClients :=
      if isAdmin then st.adminClients.filter (fun x => x != c) else st.adminClients }

/-- The connections currently registered for a principal
(`this.clients.get(userId)`, read as the empty set when absent, as the
broadcast helpers do). -/
def connectionsFor (st : WSState) (u : String) : List Nat :=
  (st.clients.lookup u).getD []

/-- Outcome of one `sendMessage` call (part_004 lines 161-165): the
guarded `ws.send` either delivers, is skipped on a non-open socket, or
throws (no try/catch in the source). -/
inductive SendOutcome where
  | delivered
  | skipped
  | threw
deriving DecidableEq, Repr

/-- `WebSocketManager.sendMessage` under the fault model: send only on
an OPEN socket; a faulty send raises. -/
def sendMessage (env : Nat → ConnAttrs) (c : Nat) : SendOutcome :=
  if (env c).isOpen then
    if (env c).failsOnSend then .threw else .delivered
  else .skipped

/-- A `Set.forEach(ws => this.sendMessage(ws, message))` loop: the list
of connections actually delivered to, and whether an exception escaped
the loop (aborting the remaining iterations, as JS exceptions do). -/
def sendSeq (env : Nat → ConnAttrs) : List Nat → List Nat × Bool
  | [] => ([], false)
  | c :: rest =>
    match sendMessage env c with
    | .threw => ([], true)
    | .delivered =>
      let r := sendSeq env rest
      (c :: r.fst, r.snd)
    | .skipped => sendSeq env rest

/-- `WebSocketManager.sendToUser` (part_004 lines 262-269). -/
def sendToUser (env : Nat → ConnAttrs) (st : WSState) (u : String) : List Nat × Bool :=
  match st.clients.lookup u with
  | some conns => sendSeq env conns
  | none => ([], false)

/-- `WebSocketManager.broadcastToAdmins` (part_004 lines 271-275). -/
def broadcastToAdmins (env : Nat → ConnAttrs) (st : WSState) : List Nat × Bool :=
  sendSeq env st.adminClients

/-- `WebSocketManager.broadcastCaseStatusChange` (part_004 lines
240-258): send to the owner's connections when `caseData.user_id` is
truthy, then to all admin connections.  The payload (old and new
status) is identical for every recipient, so delivery is tracked by
connection id; an exception from the owner loop propagates before the
admin loop runs. -/
def broadcastCaseStatusChange (env : Nat → ConnAttrs) (st : WSState) (ownerId : String) :
    List Nat × Bool :=
  if ownerId != "" then
    let r1 := sendToUser env st ownerId
    if r1.snd then r1
    else
      let r2 := broadcastToAdmins env st
      (r1.fst ++ r2.fst, r2.snd)
  else broadcastToAdmins env st

/-- One mutation of the registry: a successful authentication
(registration) or a disconnect (removal), with arbitrary field values
on the affected connection. -/
inductive WSStep : WSState → WSState → Prop
  | reg (st : WSState) (u : String) (a : Bool) (c : Nat) : WSStep st (wsRegister st u a c)
  | rem (st : WSState) (c : Nat) (uid : Option String) (a : Bool) :
      WSStep st (removeClient st c uid a)

/-- Registry states reachable from the initial empty manager by any
sequence of registrations and removals. -/
inductive WSReachable : WSState → Prop
  | init : WSReachable ⟨[], []⟩
  | step {st st' : WSState} : WSReachable st → WSStep st st' → WSReachable st'

/-- Sample admin of the Consumer Affairs department. -/
def adminConsumer : Principal :=
  { id := "a1", email := "admin1@resolvenow.example", user_type := "admin",
    department := "Consumer Affairs" }

/-- Sample admin of the Employment department. -/
def adminEmployment : Principal :=
  { id := "a2", email := "admin2@resolvenow.example", user_type := "admin",
    department := "Employment" }

/-- Sample non-admin case owner. -/
def owner1 : Principal :=
  { id := "u1", email := "user1@resolvenow.example", user_type := "individual",
    department := "" }

/-- A default case record; concrete statements override the fields
they care about. -/
def baseCase : Case :=
  { id := 0, user_id := "u1", user_email := "user1@resolvenow.example",
    case_title := "Defective appliance", case_type := "other",
    description := "The seller refuses to refund a defective appliance.",
    amount_involved := none, preferred_resolution := none,
    urgency_level := "medium", status := "Pending", assigned_department := none,
    resolution := none, admin_notes := none, resolved_by := none,
    resolved_at := none, created_at := 0, updated_at := none,
    last_updated := none }

/-- A valid submission body with `case_type = consumer`. -/
def consumerSubmission : SubmitBody :=
  { caseTitle := "Defective appliance"
    disputeType := "consumer"
    description := "The seller refuses to refund a defective appliance."
    disputeAmount := some 250
    preferredResolution := none
    urgencyLevel := none }

/-- An In Review consumer case used to exercise the resolution path. -/
def reviewCase : Case :=
  { baseCase with id := 1, case_type := "consumer", status := "In Review", created_at := 2 }

/-- A resolving status body carrying a resolution note. -/
def resolveBody : StatusBody :=
  { status := "resolved", resolution := some "Refund issued to the customer.",
    admin_notes := none }

/-- A Pending case owned by `owner1`, used to exercise cancellation. -/
def pendingCase : Case :=
  { baseCase with id := 2, user_id := "u1", status := "Pending" }

/-- A consumer case already Resolved (terminal in the §3 table). -/
def resolvedConsumerCase : Case :=
  { baseCase with id := 1, case_type := "consumer", status := "Resolved" }

/-- A Pending consumer case. -/
def consumerCase1 : Case :=
  { baseCase with id := 1, case_type := "consumer" }

/-- A consumer case owned by `u1` whose assigned department matches
`adminConsumer`. -/
def ownedConsumerCase : Case :=
  { baseCase with id := 1, user_id := "u1", case_type := "consumer", assigned_department := some "Consumer Affairs" }

/-- A case with id 1 owned by `u1`. -/
def case1 : Case :=
  { baseCase with id := 1 }

/-- Connection environment where every connection is open and healthy. -/
def envAllOk : Nat → ConnAttrs := fun _ => { isOpen := true, failsOnSend := false }

/-- Connection environment where connection 1 is open but its send
throws, and every other connection is open and healthy. -/
def envFail1 : Nat → ConnAttrs := fun c =>
  if c == 1 then { isOpen := true, failsOnSend := true }
  else { isOpen := true, failsOnSend := false }

/-- Registry with owner connections 1, 2 for `u1` and admin connection 3. -/
def stOwnerAdmin : WSState := { clients := [("u1", [1, 2])], adminClients := [3] }

/-- Registry with the single (faulty) owner connection 1 for `u1` and
the healthy admin connection 2. -/
def stFaultyOwner : WSState := { clients := [("u1", [1])], adminClients := [2] }

/-- `findSingle` succeeds exactly when the filter leaves one row. -/
theorem findSingle_eq_some {store : List Case} {p : Case → Bool} {c : Case}
    (h : findSingle store p = some c) : store.filter p = [c] := by
  unfold findSingle at h
  split at h
  · next c' heq => cases h; exact heq
  · cases h

/-- The row returned by `findSingle` belongs to the store and satisfies
the filter. -/
theorem findSingle_mem {store : List Case} {p : Case → Bool} {c : Case}
    (h : findSingle store p = some c) : c ∈ store ∧ p c = true := by
  have hf := findSingle_eq_some h
  have hc : c ∈ store.filter p := by rw [hf]; exact List.mem_singleton_self c
  exact List.mem_filter.mp hc

/-- A row-wise store update that does not disturb the filter maps
through `findSingle`. -/
theorem findSingle_map_pred {store : List Case} {p : Case → Bool} {g : Case → Case}
    (hg : ∀ x, p (g x) = p x) {c : Case} (h : findSingle store p = some c) :
    findSingle (store.map g) p = some (g c) := by
  have hfil := findSingle_eq_some h
  have hcong : List.filter (p ∘ g) store = List.filter p store :=
    List.filter_congr (fun x _ => hg x)
  unfold findSingle
  rw [List.filter_map, hcong, hfil]
  rfl

/-- When case ids are unique in the store, an id-keyed `.single()`
query succeeds exactly when some stored case has the requested id and
passes the remaining filters. -/
theorem findSingle_id_isSome_iff (store : List Case) (idv : Nat) (q : Case → Bool)
    (hU : (store.map Case.id).Nodup) :
    (findSingle store (fun c => c.id == idv && q c)).isSome = true ↔
      ∃ c ∈ store, c.id = idv ∧ q c = true := by
  constructor
  · intro h
    unfold findSingle at h
    rcases hfe : store.filter (fun c => c.id == idv && q c) with _ | ⟨c, _ | ⟨c2, t⟩⟩ <;>
      rw [hfe] at h
    · cases h
    · have hc : c ∈ store.filter (fun c => c.id == idv && q c) := by
        rw [hfe]; exact List.mem_singleton_self c
      have hm := List.mem_filter.mp hc
      have hp := hm.2
      simp only [Bool.and_eq_true, beq_iff_eq] at hp
      exact ⟨c, hm.1, hp.1, hp.2⟩
    · cases h
  · rintro ⟨c, hc, hid, hq⟩
    have hcf : c ∈ store.filter (fun c => c.id == idv && q c) :=
      List.mem_filter.mpr ⟨hc, by simp [hid, hq]⟩
    have hnd : ((store.filter (fun c => c.id == idv && q c)).map Case.id).Nodup :=
      hU.sublist (List.Sublist.map Case.id (List.filter_sublist store))
    unfold findSingle
    rcases hfe : store.filter (fun c => c.id == idv && q c) with _ | ⟨c1, _ | ⟨c2, t⟩⟩
    · rw [hfe] at hcf; cases hcf
    · rw [hfe]; rfl
    · exfalso
      rw [hfe] at hnd hcf
      have h1 : c1.id = idv := by
        have hm : c1 ∈ store.filter (fun c => c.id == idv && q c) := by rw [hfe]; simp
        have := (List.mem_filter.mp hm).2
        simp only [Bool.and_eq_true, beq_iff_eq] at this
        exact this.1
      have h2 : c2.id = idv := by
        have hm : c2 ∈ store.filter (fun c => c.id == idv && q c) := by rw [hfe]; simp
        have := (List.mem_filter.mp hm).2
        simp only [Bool.and_eq_true, beq_iff_eq] at this
        exact this.1
      simp only [List.map_cons, List.nodup_cons, List.mem_cons] at hnd
      exact hnd.1 (Or.inl (h1.trans h2.symm))

/-- `Set.add` never produces the empty set. -/
theorem addConn_ne_nil (s : List Nat) (c : Nat) : addConn s c ≠ [] := by
  unfold addConn
  split
  · next h => intro he; subst he; simp at h
  · simp

/-- Lookup skips a prefix that does not contain the key. -/
theorem lookup_append_none {l1 l2 : List (String × List Nat)} {u : String}
    (h : l1.lookup u = none) : (l1 ++ l2).lookup u = l2.lookup u := by
  induction l1 with
  | nil => rfl
  | cons q l ih =>
    obtain ⟨k, v⟩ := q
    by_cases hk : u = k
    · subst hk
      simp [List.lookup_cons] at h
    · have hkb : (u == k) = false := beq_eq_false_iff_ne.mpr hk
      simp only [List.cons_append, List.lookup_cons, hkb] at h ⊢
      exact ih h

/-- `Map.set` on an existing key is observed by lookup; absent keys
stay absent. -/
theorem lookup_setEntry (l : List (String × List Nat)) (u : String) (v : List Nat) :
    (setEntry l u v).lookup u = (l.lookup u).map (fun _ => v) := by
  induction l with
  | nil => rfl
  | cons q l ih =>
    obtain ⟨k, w⟩ := q
    simp only [setEntry, List.map_cons] at ih ⊢
    by_cases hk : k = u
    · subst hk
      rw [if_pos rfl]
      simp [List.lookup]
    · rw [if_neg hk]
      have h2 : (u == k) = false := beq_eq_false_iff_ne.mpr (fun h => hk h.symm)
      simp only [List.lookup_cons, h2]
      exact ih

/-- `Map.delete` removes the key from lookup. -/
theorem lookup_eraseEntry (l : List (String × List Nat)) (u : String) :
    (eraseEntry l u).lookup u = none := by
  induction l with
  | nil => rfl
  | cons q l ih =>
    obtain ⟨k, w⟩ := q
    simp only [eraseEntry, List.filter_cons] at ih ⊢
    by_cases hk : k = u
    · subst hk
      simp only [bne_self_eq_false]
      simpa using ih
    · have h1 : (k != u) = true := bne_iff_ne.mpr hk
      have h2 : (u == k) = false := beq_eq_false_iff_ne.mpr (fun h => hk h.symm)
      simp only [h1, if_true]
      simp only [List.lookup_cons, h2]
      exact ih

/-- A fan-out loop in which no audience member throws delivers to
exactly the open connections, in order, and no exception escapes. -/
theorem sendSeq_no_fail (env : Nat → ConnAttrs) (l : List Nat)
    (h : ∀ c ∈ l, (env c).failsOnSend = false) :
    sendSeq env l = (l.filter (fun c => (env c).isOpen), false) := by
  induction l with
  | nil => rfl
  | cons c rest ih =>
    have hc := h c (List.mem_cons_self c rest)
    have hrest := ih (fun x hx => h x (List.mem_cons_of_mem c hx))
    cases ho : (env c).isOpen with
    | true => simp [sendSeq, sendMessage, ho, hc, hrest, List.filter_cons]
    | false => simp [sendSeq, sendMessage, ho, hc, hrest, List.filter_cons]

/-- `applyStatusUpdate` never touches the case id. -/
theorem applyStatusUpdate_id (c : Case) (s : String) (r n : Option String)
    (aid : String) (now : Nat) :
    (applyStatusUpdate c s n r aid now).id = c.id := by
  unfold applyStatusUpdate
  split <;> split <;> rfl

/-- Resolving stamps the status, `resolved_at := now`, and leaves
`created_at` alone, whether or not admin notes are attached. -/
theorem applyStatusUpdate_resolved (c : Case) (r n : Option String) (aid : String) (now : Nat) :
    (applyStatusUpdate c "resolved" r n aid now).status = "resolved" ∧
    (applyStatusUpdate c "resolved" r n aid now).resolved_at = some now ∧
    (applyStatusUpdate c "resolved" r n aid now).created_at = c.created_at := by
  by_cases hn : falsy n = true
  · simp [applyStatusUpdate, hn]
  · simp [applyStatusUpdate, hn]

/-- C1: as stated the claim fails on the code: the status route checks
only that the requested status is one of pending, in_review, resolved,
rejected, and never consults the stored status.  Here the stored case
is Resolved — terminal in the transition table, so no pair out of it
is in the table — yet the request for status pending is answered with
200 and the stored case is rewritten, instead of the claimed
ValidationError with the case unchanged. -/
theorem C1_counterexample :
    (adminUpdateCaseStatus adminConsumer [resolvedConsumerCase] 1
        { status := "pending", resolution := none, admin_notes := none } 7).fst.status = 200 ∧
    (adminUpdateCaseStatus adminConsumer [resolvedConsumerCase] 1
        { status := "pending", resolution := none, admin_notes := none } 7).snd =
      [{ resolvedConsumerCase with status := "pending", updated_at := some 7 }] := by
  constructor
  · rfl
  · rfl

/-- C1 amended: a status-update request is rejected with a 400
ValidationError and an unchanged store exactly when the requested
status is outside the validator set; for a status inside the set the
handler never consults the current status, so an authorized request
succeeds regardless of the stored status. -/
theorem C1_amended (admin : Principal) (store : List Case) (idv : Nat) (b : StatusBody)
    (now : Nat) (hA : admin.user_type = "admin") :
    (statusIsIn b.status = false →
      adminUpdateCaseStatus admin store idv b now = ({ status := 400, code := "" }, store)) ∧
    (∀ c, statusIsIn b.status = true →
      findSingle store (fun x => x.id == idv) = some c →
      (departmentToCaseTypes admin.department).contains c.case_type = true →
      (b.status == "resolved" && falsy (b.resolution.map trimStr)) = false →
      (adminUpdateCaseStatus admin store idv b now).fst.status = 200) := by
  have hAb : (admin.user_type != "admin") = false := by simp [hA]
  constructor
  · intro hS
    simp [adminUpdateCaseStatus, hAb, hS]
  · intro c hS hF hD hR
    have hD2 : c.case_type ∈ departmentToCaseTypes admin.department := by simpa using hD
    have hR2 : ¬(b.status = "resolved" ∧ falsy (b.resolution.map trimStr) = true) := by
      simpa using hR
    simp [adminUpdateCaseStatus, hAb, hS, hF, hD2, hR2]

/-- C1 amended, witnessed at a concrete input: even the literal §3
status value Closed is rejected by the validator, with the store
unchanged. -/
theorem C1_amended_witness :
    statusIsIn "Closed" = false ∧
    adminUpdateCaseStatus adminConsumer [] 1
        { status := "Closed", resolution := none, admin_notes := none } 0 =
      ({ status := 400, code := "" }, []) :=
  ⟨by decide,
   (C1_amended adminConsumer [] 1
      { status := "Closed", resolution := none, admin_notes := none } 0 rfl).1 (by decide)⟩

/-- C2: as stated the claim fails on the code: an admin whose
department equals the case's assigned department, but who is not the
owner, receives 404 from `GET /api/cases/:id`, because that route
filters by `user_id = req.user.id` only. -/
theorem C2_counterexample :
    adminConsumer.user_type = "admin" ∧
    adminConsumer.department = "Consumer Affairs" ∧
    adminConsumer.id ≠ "u1" ∧
    ownedConsumerCase.assigned_department = some adminConsumer.department ∧
    getCaseUser adminConsumer [ownedConsumerCase] 1 =
      { status := 404, code := "CASE_NOT_FOUND" } := by decide

/-- C2 amended: with unique case ids, `GET /api/cases/:id` succeeds
exactly when the store holds a case with that id owned by the caller;
the admin view is the separate route `GET /api/admin/cases/:id`, which
succeeds exactly when the caller is an admin and the case's assigned
department equals the caller's department. -/
theorem C2_amended (p : Principal) (store : List Case) (idv : Nat)
    (hU : (store.map Case.id).Nodup) :
    ((getCaseUser p store idv).status = 200 ↔
      ∃ c ∈ store, c.id = idv ∧ c.user_id = p.id) ∧
    ((getCaseAdmin p store idv).status = 200 ↔
      p.user_type = "admin" ∧
        ∃ c ∈ store, c.id = idv ∧ c.assigned_department = some p.department) := by
  constructor
  · have hiff := findSingle_id_isSome_iff store idv (fun c => c.user_id == p.id) hU
    simp only [beq_iff_eq] at hiff
    rw [← hiff]
    unfold getCaseUser
    cases findSingle store (fun c => c.id == idv && c.user_id == p.id) with
    | none => simp
    | some c => simp
  · by_cases hA : p.user_type = "admin"
    · have hAb : (p.user_type != "admin") = false := by simp [hA]
      have hiff := findSingle_id_isSome_iff store idv
        (fun c => c.assigned_department == some p.department) hU
      simp only [beq_iff_eq] at hiff
      rw [← hiff]
      unfold getCaseAdmin
      rw [hAb]
      cases findSingle store
          (fun c => c.id == idv && c.assigned_department == some p.department) with
      | none => simp [hA]
      | some c => simp [hA]
    · have hAb : (p.user_type != "admin") = true := bne_iff_ne.mpr hA
      unfold getCaseAdmin
      rw [hAb]
      simp [hA]

/-- C2 amended, witnessed: the owner reads their own case with 200. -/
theorem C2_amended_witness :
    (([case1] : List Case).map Case.id).Nodup ∧
    ((getCaseUser owner1 [case1] 1).status = 200 ↔
      ∃ c ∈ [case1], c.id = 1 ∧ c.user_id = owner1.id) :=
  ⟨by decide, (C2_amended owner1 [case1] 1 (by decide)).1⟩

/-- C4: as stated the claim fails on the code: the admin status route
answers a department mismatch with 403 ACCESS_DENIED, confirming the
case exists, instead of the claimed uniform 404. -/
theorem C4_counterexample :
    (adminUpdateCaseStatus adminEmployment [consumerCase1] 1
        { status := "in_review", resolution := none, admin_notes := none } 0).fst =
      { status := 403, code := "ACCESS_DENIED" } := by decide

/-- C4 amended: the user-facing case read reports every authorization
failure as 404, but the admin status-update route reports a department
mismatch on an existing case as 403 Forbidden. -/
theorem C4_amended (admin : Principal) (store : List Case) (idv : Nat) (b : StatusBody)
    (now : Nat) (c : Case)
    (hA : admin.user_type = "admin")
    (hS : statusIsIn b.status = true)
    (hF : findSingle store (fun x => x.id == idv) = some c)
    (hD : (departmentToCaseTypes admin.department).contains c.case_type = false) :
    adminUpdateCaseStatus admin store idv b now =
      ({ status := 403, code := "ACCESS_DENIED" }, store) ∧
    ∀ (p : Principal) (store2 : List Case) (id2 : Nat),
      (getCaseUser p store2 id2).status = 404 ∨ (getCaseUser p store2 id2).status = 200 := by
  have hAb : (admin.user_type != "admin") = false := by simp [hA]
  constructor
  · have hD2 : c.case_type ∉ departmentToCaseTypes admin.department := by simpa using hD
    simp [adminUpdateCaseStatus, hAb, hS, hF, hD2]
  · intro p store2 id2
    unfold getCaseUser
    cases findSingle store2 (fun c => c.id == id2 && c.user_id == p.id) with
    | none => simp
    | some c2 => simp

/-- C4 amended, witnessed at the Employment admin and a consumer
case. -/
theorem C4_amended_witness :
    adminUpdateCaseStatus adminEmployment [consumerCase1] 1
        { status := "in_review", resolution := none, admin_notes := none } 0 =
      ({ status := 403, code := "ACCESS_DENIED" }, [consumerCase1]) :=
  (C4_amended adminEmployment [consumerCase1] 1
      { status := "in_review", resolution := none, admin_notes := none } 0 consumerCase1
      rfl (by decide) (by decide) (by decide)).1

/-- C5: for an authorized status update requesting resolved on an
existing case of the admin's department: without a non-empty (trimmed)
resolution note the request is rejected with 400 and the store is
unchanged; with one, the update succeeds with 200 and the stored case
carries status resolved and `resolved_at = now`, which is `≥
created_at` whenever the clock did not run backwards since
creation. -/
theorem C5_resolution_rules (admin : Principal) (store : List Case) (idv : Nat)
    (b : StatusBody) (now : Nat) (c : Case)
    (hA : admin.user_type = "admin")
    (hS : b.status = "resolved")
    (hF : findSingle store (fun x => x.id == idv) = some c)
    (hD : (departmentToCaseTypes admin.department).contains c.case_type = true)
    (hT : c.created_at ≤ now) :
    (falsy (b.resolution.map trimStr) = true →
      adminUpdateCaseStatus admin store idv b now =
        ({ status := 400, code := "RESOLUTION_REQUIRED" }, store)) ∧
    (falsy (b.resolution.map trimStr) = false →
      (adminUpdateCaseStatus admin store idv b now).fst.status = 200 ∧
      ∃ c', findSingle (adminUpdateCaseStatus admin store idv b now).snd
              (fun x => x.id == idv) = some c' ∧
            c'.status = "resolved" ∧ c'.resolved_at = some now ∧ c'.created_at ≤ now) := by
  have hAb : (admin.user_type != "admin") = false := by simp [hA]
  have hSin : statusIsIn "resolved" = true := by decide
  have hD2 : c.case_type ∈ departmentToCaseTypes admin.department := by simpa using hD
  constructor
  · intro hfalsy
    simp [adminUpdateCaseStatus, hAb, hSin, hF, hD2, hS, hfalsy]
  · intro hfalsy
    have hEq : adminUpdateCaseStatus admin store idv b now =
        ({ status := 200, code := "" },
         store.map (fun x =>
           if x.id == idv then
             applyStatusUpdate x b.status (b.resolution.map trimStr)
               (b.admin_notes.map trimStr) admin.id now
           else x)) := by
      simp [adminUpdateCaseStatus, hAb, hSin, hF, hD2, hS, hfalsy]
    rw [hEq]
    refine ⟨rfl, ?_⟩
    have hg : ∀ x : Case,
        ((if x.id == idv then
            applyStatusUpdate x b.status (b.resolution.map trimStr)
              (b.admin_notes.map trimStr) admin.id now
          else x).id == idv) = (x.id == idv) := by
      intro x
      by_cases hx : (x.id == idv) = true
      · simp [hx, applyStatusUpdate_id]
      · simp [hx]
    have hmap := findSingle_map_pred hg hF
    have hcp : (c.id == idv) = true := (findSingle_mem hF).2
    refine ⟨applyStatusUpdate c b.status (b.resolution.map trimStr)
        (b.admin_notes.map trimStr) admin.id now, ?_, ?_⟩
    · rw [hmap, hcp]
      simp
    · rw [hS]
      have hres := applyStatusUpdate_resolved c (b.resolution.map trimStr)
        (b.admin_notes.map trimStr) admin.id now
      exact ⟨hres.1, hres.2.1, hres.2.2 ▸ hT⟩

/-- C5 witnessed: resolving the In Review consumer case with a note
succeeds and stamps `resolved_at = 5 ≥ created_at = 2`. -/
theorem C5_witness :
    (adminUpdateCaseStatus adminConsumer [reviewCase] 1 resolveBody 5).fst.status = 200 ∧
    ∃ c', findSingle (adminUpdateCaseStatus adminConsumer [reviewCase] 1 resolveBody 5).snd
            (fun x => x.id == 1) = some c' ∧
          c'.status = "resolved" ∧ c'.resolved_at = some 5 ∧ c'.created_at ≤ 5 :=
  (C5_resolution_rules adminConsumer [reviewCase] 1 resolveBody 5 reviewCase
      rfl rfl (by decide) (by decide) (by decide)).2 (by decide)

/-- C6: for a stored case owned by the caller: cancellation succeeds
with 200 and stores status Closed exactly when the case is Pending;
otherwise it is rejected with 400 and the store is unchanged — and
therefore a second cancellation of a just-cancelled case always fails
with 400 and leaves the store as it was. -/
theorem C6_cancel_rules (p : Principal) (store : List Case) (idv : Nat) (c : Case)
    (now now2 : Nat)
    (hF : findSingle store (fun x => x.id == idv && x.user_id == p.id) = some c) :
    (c.status = "Pending" →
      (cancelCase p store idv now).fst.status = 200 ∧
      (∃ c', findSingle (cancelCase p store idv now).snd
               (fun x => x.id == idv && x.user_id == p.id) = some c' ∧
             c'.status = "Closed") ∧
      cancelCase p (cancelCase p store idv now).snd idv now2 =
        ({ status := 400, code := "CANNOT_CANCEL" }, (cancelCase p store idv now).snd)) ∧
    (c.status ≠ "Pending" →
      cancelCase p store idv now = ({ status := 400, code := "CANNOT_CANCEL" }, store)) := by
  constructor
  · intro hP
    have hPb : (c.status != "Pending") = false := by simp [hP]
    have hEq : cancelCase p store idv now =
        ({ status := 200, code := "" },
         store.map (fun x =>
           if x.id == idv && x.user_id == p.id then
             { x with status := "Closed", last_updated := some now }
           else x)) := by
      simp [cancelCase, hF, hPb]
    have hg : ∀ x : Case,
        (((if x.id == idv && x.user_id == p.id then
             { x with status := "Closed", last_updated := some now }
           else x).id == idv) &&
         ((if x.id == idv && x.user_id == p.id then
             { x with status := "Closed", last_updated := some now }
           else x).user_id == p.id)) = (x.id == idv && x.user_id == p.id) := by
      intro x
      by_cases hx : (x.id == idv && x.user_id == p.id) = true
      · simp [hx]
      · simp [hx]
    have hmap := findSingle_map_pred hg hF
    have hcp : (c.id == idv && c.user_id == p.id) = true := (findSingle_mem hF).2
    rw [hEq]
    refine ⟨rfl, ⟨{ c with status := "Closed", last_updated := some now }, ?_, rfl⟩, ?_⟩
    · rw [hmap, hcp]
      simp
    · simp only [cancelCase]
      rw [hmap, hcp]
      simp
  · intro hP
    have hPb : (c.status != "Pending") = true := bne_iff_ne.mpr hP
    simp [cancelCase, hF, hPb]

/-- C6 witnessed on a concrete Pending case: first cancel succeeds and
closes it, second cancel fails with 400. -/
theorem C6_witness :
    (cancelCase owner1 [pendingCase] 2 4).fst.status = 200 ∧
    (∃ c', findSingle (cancelCase owner1 [pendingCase] 2 4).snd
             (fun x => x.id == 2 && x.user_id == owner1.id) = some c' ∧
           c'.status = "Closed") ∧
    cancelCase owner1 (cancelCase owner1 [pendingCase] 2 4).snd 2 9 =
      ({ status := 400, code := "CANNOT_CANCEL" }, (cancelCase owner1 [pendingCase] 2 4).snd) :=
  (C6_cancel_rules owner1 [pendingCase] 2 pendingCase 4 9 (by decide)).1 rfl

/-- C9: the claim is right and the code wrong: the submit route
computes `departmentMapping "consumer" = "Consumer Affairs"` but the
insert that follows omits `assigned_department`, so the successfully
created (201) case is stored with no assigned department at all,
contradicting both the route's own Auto-assign comment and the admin
routes that filter on this column. -/
theorem C9_department_not_stored :
    departmentMapping "consumer" = "Consumer Affairs" ∧
    (submitCase owner1 [] consumerSubmission 3 1).fst.status = 201 ∧
    (submitCase owner1 [] consumerSubmission 3 1).snd =
      [newCaseFromSubmit owner1 consumerSubmission 3 1] ∧
    (newCaseFromSubmit owner1 consumerSubmission 3 1).assigned_department = none := by decide

/-- Registration on a known principal updates that principal's set. -/
theorem wsRegister_clients_some {st : WSState} {u : String} {s : List Nat} (a : Bool) (c : Nat)
    (h : st.clients.lookup u = some s) :
    (wsRegister st u a c).clients = setEntry st.clients u (addConn s c) := by
  simp [wsRegister, h]

/-- Registration on an unknown principal appends a fresh entry. -/
theorem wsRegister_clients_none {st : WSState} {u : String} (a : Bool) (c : Nat)
    (h : st.clients.lookup u = none) :
    (wsRegister st u a c).clients = st.clients ++ [(u, addConn [] c)] := by
  simp [wsRegister, h]

/-- Removal on a known principal filters that principal's set,
dropping the entry when it empties. -/
theorem removeClient_clients_some {st : WSState} {u : String} {s : List Nat} (c : Nat) (a : Bool)
    (hu : u ≠ "") (h : st.clients.lookup u = some s) :
    (removeClient st c (some u) a).clients =
      (if (s.filter (fun x => x != c)).isEmpty then eraseEntry st.clients u
       else setEntry st.clients u (s.filter (fun x => x != c))) := by
  simp [removeClient, hu, h]

/-- Registration preserves non-emptiness of every clients-map entry. -/
theorem wsRegister_preserves_nonempty (st : WSState) (u : String) (a : Bool) (c : Nat)
    (ih : ∀ q ∈ st.clients, q.snd ≠ []) :
    ∀ q ∈ (wsRegister st u a c).clients, q.snd ≠ [] := by
  intro q hq
  cases hlk : st.clients.lookup u with
  | some s =>
    rw [wsRegister_clients_some a c hlk] at hq
    simp only [setEntry, List.mem_map] at hq
    obtain ⟨q0, hq0, rfl⟩ := hq
    by_cases hk : q0.fst = u
    · rw [if_pos hk]
      exact addConn_ne_nil s c
    · rw [if_neg hk]
      exact ih q0 hq0
  | none =>
    rw [wsRegister_clients_none a c hlk] at hq
    rcases List.mem_append.mp hq with h1 | h1
    · exact ih q h1
    · rcases List.mem_singleton.mp h1 with rfl
      exact addConn_ne_nil [] c

/-- Removal preserves non-emptiness of every clients-map entry. -/
theorem removeClient_preserves_nonempty (st : WSState) (c : Nat) (uid : Option String)
    (a : Bool) (ih : ∀ q ∈ st.clients, q.snd ≠ []) :
    ∀ q ∈ (removeClient st c uid a).clients, q.snd ≠ [] := by
  intro q hq
  cases uid with
  | none => exact ih q hq
  | some u =>
    by_cases hu : u = ""
    · subst hu
      simp only [removeClient, if_pos rfl] at hq
      exact ih q hq
    · cases hlk : st.clients.lookup u with
      | none =>
        simp only [removeClient, if_neg hu, hlk] at hq
        exact ih q hq
      | some s =>
        rw [removeClient_clients_some c a hu hlk] at hq
        by_cases he : (s.filter (fun x => x != c)).isEmpty = true
        · rw [if_pos he] at hq
          exact ih q (List.mem_of_mem_filter hq)
        · rw [if_neg he] at hq
          simp only [setEntry, List.mem_map] at hq
          obtain ⟨q0, hq0, rfl⟩ := hq
          by_cases hk : q0.fst = u
          · rw [if_pos hk]
            intro hnil
            exact he (List.isEmpty_iff.mpr hnil)
          · rw [if_neg hk]
            exact ih q0 hq0

/-- C3: when no audience member's send throws and the owner id is
truthy, `broadcastCaseStatusChange` delivers to a connection exactly
when it is one of the owner's registered connections or one of the
admin connections, and is live (open); no other connection receives
the event. -/
theorem C3_broadcast_audience (env : Nat → ConnAttrs) (st : WSState) (ownerId : String)
    (hOwner : ownerId ≠ "")
    (hNoFailOwner : ∀ c ∈ connectionsFor st ownerId, (env c).failsOnSend = false)
    (hNoFailAdmin : ∀ c ∈ st.adminClients, (env c).failsOnSend = false) (w : Nat) :
    w ∈ (broadcastCaseStatusChange env st ownerId).fst ↔
      ((w ∈ connectionsFor st ownerId ∨ w ∈ st.adminClients) ∧ (env w).isOpen = true) := by
  have hOb : (ownerId != "") = true := bne_iff_ne.mpr hOwner
  have hadmin := sendSeq_no_fail env st.adminClients hNoFailAdmin
  cases hlk : st.clients.lookup ownerId with
  | none =>
    have hcf : connectionsFor st ownerId = [] := by simp [connectionsFor, hlk]
    simp [broadcastCaseStatusChange, sendToUser, broadcastToAdmins, hOb, hlk, hadmin, hcf,
      List.mem_filter]
  | some conns =>
    have hcf : connectionsFor st ownerId = conns := by simp [connectionsFor, hlk]
    have hown := sendSeq_no_fail env conns (by rw [hcf] at hNoFailOwner; exact hNoFailOwner)
    simp [broadcastCaseStatusChange, sendToUser, broadcastToAdmins, hOb, hlk, hown, hadmin, hcf,
      List.mem_append, List.mem_filter]
    tauto

/-- C3 witnessed on a registry with owner connections 1, 2 and admin
connection 3, all healthy. -/
theorem C3_witness :
    (3 ∈ (broadcastCaseStatusChange envAllOk stOwnerAdmin "u1").fst) ↔
      ((3 ∈ connectionsFor stOwnerAdmin "u1" ∨ 3 ∈ stOwnerAdmin.adminClients) ∧
        (envAllOk 3).isOpen = true) :=
  C3_broadcast_audience envAllOk stOwnerAdmin "u1" (by decide) (by decide) (by decide) 3

/-- C7: on a fresh principal, registering a connection and then
unregistering it leaves `connectionsFor` empty and removes the map
entry entirely; registering two distinct connections and unregistering
the first keeps the second discoverable. -/
theorem C7_registry_roundtrip (st : WSState) (p : String) (a : Bool) (c1 c2 : Nat)
    (hp : p ≠ "") (hfresh : st.clients.lookup p = none) (hne : c1 ≠ c2) :
    connectionsFor (removeClient (wsRegister st p a c1) c1 (some p) a) p = [] ∧
    (removeClient (wsRegister st p a c1) c1 (some p) a).clients.lookup p = none ∧
    c2 ∈ connectionsFor
        (removeClient (wsRegister (wsRegister st p a c1) p a c2) c1 (some p) a) p := by
  have hreg1 : (wsRegister st p a c1).clients = st.clients ++ [(p, [c1])] :=
    wsRegister_clients_none a c1 hfresh
  have hlk1 : (wsRegister st p a c1).clients.lookup p = some [c1] := by
    rw [hreg1, lookup_append_none hfresh]
    simp [List.lookup]
  have hrem1 : (removeClient (wsRegister st p a c1) c1 (some p) a).clients =
      eraseEntry (wsRegister st p a c1).clients p := by
    rw [removeClient_clients_some c1 a hp hlk1]
    simp
  have hlkafter : (removeClient (wsRegister st p a c1) c1 (some p) a).clients.lookup p =
      none := by
    rw [hrem1]; exact lookup_eraseEntry _ p
  refine ⟨by simp [connectionsFor, hlkafter], hlkafter, ?_⟩
  have haddc : addConn [c1] c2 = [c1, c2] := by
    have hne2 : ¬c2 = c1 := fun h => hne h.symm
    simp [addConn, hne2]
  have hreg2 : (wsRegister (wsRegister st p a c1) p a c2).clients =
      setEntry (wsRegister st p a c1).clients p [c1, c2] := by
    rw [wsRegister_clients_some a c2 hlk1, haddc]
  have hlk2 : (wsRegister (wsRegister st p a c1) p a c2).clients.lookup p = some [c1, c2] := by
    rw [hreg2, lookup_setEntry, hlk1]
    rfl
  have hfilter : ([c1, c2].filter (fun x => x != c1)) = [c2] := by
    have h2 : (c2 != c1) = true := bne_iff_ne.mpr (fun h => hne h.symm)
    simp [List.filter_cons, h2]
  have hrem2 : (removeClient (wsRegister (wsRegister st p a c1) p a c2) c1 (some p) a).clients =
      setEntry (wsRegister (wsRegister st p a c1) p a c2).clients p [c2] := by
    rw [removeClient_clients_some c1 a hp hlk2, hfilter]
    simp
  have hlk3 : (removeClient (wsRegister (wsRegister st p a c1) p a c2) c1
      (some p) a).clients.lookup p = some [c2] := by
    rw [hrem2, lookup_setEntry, hlk2]
    rfl
  simp [connectionsFor, hlk3]

/-- C7 witnessed from the empty registry with connections 1 and 2. -/
theorem C7_witness :
    connectionsFor (removeClient (wsRegister ⟨[], []⟩ "u1" false 1) 1 (some "u1") false)
        "u1" = [] ∧
    (removeClient (wsRegister ⟨[], []⟩ "u1" false 1) 1 (some "u1") false).clients.lookup
        "u1" = none ∧
    2 ∈ connectionsFor
        (removeClient (wsRegister (wsRegister ⟨[], []⟩ "u1" false 1) "u1" false 2) 1
          (some "u1") false) "u1" :=
  C7_registry_roundtrip ⟨[], []⟩ "u1" false 1 2 (by decide) (by decide) (by decide)

/-- C8: as stated the claim fails on the code: with the owner's only
connection open but throwing on send, the healthy open admin
connection 2 — part of the computed audience — receives nothing,
because the exception escapes the fan-out (there is no try/catch in
`sendMessage` or the loops). -/
theorem C8_counterexample :
    stFaultyOwner.adminClients = [2] ∧
    (envFail1 2).isOpen = true ∧ (envFail1 2).failsOnSend = false ∧
    (broadcastCaseStatusChange envFail1 stFaultyOwner "u1").fst = [] ∧
    (broadcastCaseStatusChange envFail1 stFaultyOwner "u1").snd = true := by decide

/-- C8 amended: a send failure on one recipient aborts the fan-out
loop: the open recipients before the first failing open connection are
delivered to, every later recipient receives nothing, and the
exception escapes to the caller. -/
theorem C8_amended (env : Nat → ConnAttrs) (pre post : List Nat) (f : Nat)
    (hpre : ∀ c ∈ pre, ((env c).isOpen && (env c).failsOnSend) = false)
    (hfo : (env f).isOpen = true) (hff : (env f).failsOnSend = true) :
    sendSeq env (pre ++ f :: post) = (pre.filter (fun c => (env c).isOpen), true) := by
  induction pre with
  | nil => simp [sendSeq, sendMessage, hfo, hff]
  | cons c rest ih =>
    have hc := hpre c (List.mem_cons_self c rest)
    have hrest := ih (fun x hx => hpre x (List.mem_cons_of_mem c hx))
    cases ho : (env c).isOpen with
    | true =>
      have hcf : (env c).failsOnSend = false := by
        rw [ho] at hc; simpa using hc
      simp [sendSeq, sendMessage, ho, hcf, hrest, List.filter_cons]
    | false =>
      simp [sendSeq, sendMessage, ho, hrest, List.filter_cons]

/-- C8 amended, witnessed: connection 2 (before the faulty connection
1) is delivered to, connection 3 (after it) is not, and the exception
escapes. -/
theorem C8_amended_witness :
    sendSeq envFail1 ([2] ++ 1 :: [3]) =
      ([2].filter (fun c => (envFail1 c).isOpen), true) :=
  C8_amended envFail1 [2] [3] 1 (by decide) (by decide) (by decide)

/-- C10: in every registry state reachable by any sequence of
registrations and removals, each userId key of the clients map holds a
non-empty connection set: removal drops an entry as soon as its set
empties, and registration only ever adds to a set. -/
theorem C10_clients_nonempty (st : WSState) (h : WSReachable st) :
    ∀ q ∈ st.clients, q.snd ≠ [] := by
  induction h with
  | init => intro q hq; cases hq
  | step hr hstep ih =>
    cases hstep with
    | reg u a c => exact wsRegister_preserves_nonempty _ u a c ih
    | rem c uid a => exact removeClient_preserves_nonempty _ c uid a ih

/-- C10 witnessed on the state reached by one registration. -/
theorem C10_witness : ("u1", [5]).snd ≠ ([] : List Nat) :=
  C10_clients_nonempty ⟨[("u1", [5])], []⟩
    (WSReachable.step WSReachable.init (WSStep.reg ⟨[], []⟩ "u1" false 5))
    ("u1", [5]) (List.mem_singleton_self _)

end ResolveNow
